import Mathlib

/-!
Shallow embedding of `packages/opentelemetry-sdk-workers/src/sdk.ts`
(classes `WorkersSDK` and `WorkerInstance`).

JavaScript values are modelled as follows: JS numbers are rationals
(`Date.now()` values and the `0.01` epsilon both live in `ℚ`); nullable
values are `Option`; a `RegExp` is abstracted to its `test` predicate
`String → Bool`; thrown exceptions become `Except JsError`.  A Fetch-API
`Headers` object is a list of key/value pairs whose keys the Fetch spec
stores lower-cased and deduplicated; `URLSearchParams` is a list of
key/value pairs in iteration order.
-/

namespace WorkersSdk

/-- `SpanKind` from `@opentelemetry/api`. -/
inductive SpanKind where
  | INTERNAL
  | SERVER
  | CLIENT
  | PRODUCER
  | CONSUMER
deriving DecidableEq

/-- A span attribute value: a string, a JS number, a nullable string
(`headers.get` may return `null`), or an array of strings as used for the
header attributes (`[request.headers.get(headerKey)]`). -/
inductive AttrValue where
  | str (s : String)
  | num (n : ℚ)
  | optStr (o : Option String)
  | strList (l : List String)
deriving DecidableEq

/-- One entry of `allowedHeaders` / array-form `allowedSearch`:
`string | RegExp`.  A `RegExp` is modelled by its `test` predicate. -/
inductive AllowEntry where
  | exact (s : String)
  | pattern (p : String → Bool)

/-- `allowedSearch : RegExp | (string | RegExp)[]` — either a single
pattern or an array of entries. -/
inductive SearchAllowList where
  | single (p : String → Bool)
  | list (entries : List AllowEntry)

/-- `typeof allowed === 'string' ? allowed === key : allowed.test(key)`. -/
def matchesEntry (key : String) : AllowEntry → Bool
  | AllowEntry.exact s => key == s
  | AllowEntry.pattern p => p key

/-- The allow-list membership predicate used by both header loops:
`this.allowedHeaders.some(allowed => ...)` (spec §4.1 `isAllowed`). -/
def isAllowed (key : String) (entries : List AllowEntry) : Bool :=
  entries.any (matchesEntry key)

/-- The query-parameter variant: `Array.isArray(this.allowedSearch)`
branches between `.some(...)` over entries and `.test(key)`. -/
def searchKeyAllowed (allowed : SearchAllowList) (key : String) : Bool :=
  match allowed with
  | SearchAllowList.single p => p key
  | SearchAllowList.list entries => entries.any (matchesEntry key)

/-- JS `String.prototype.toLowerCase` for the ASCII header keys handled
here: lower-case each character. -/
def strToLower (s : String) : String :=
  String.mk (s.data.map Char.toLower)

/-- The loop of `getSpan` lines 115–128: walk `url.searchParams` in order
and `append` each pair whose key passes `allowedSearch`. -/
def collectSearchParams (allowed : SearchAllowList) :
    List (String × String) → List (String × String)
  | [] => []
  | (k, v) :: rest =>
    let keep :=
      match allowed with
      | SearchAllowList.list entries =>
          entries.any fun e => matchesEntry k e
      | SearchAllowList.single p => p k
    if keep then (k, v) :: collectSearchParams allowed rest
    else collectSearchParams allowed rest

/-- `URLSearchParams.prototype.toString`: `k=v` pairs joined by `&`
(percent-encoding is abstracted away; it does not affect emptiness or
order). -/
def urlSearchParamsToString : List (String × String) → String
  | [] => ""
  | [(k, v)] => k ++ "=" ++ v
  | (k, v) :: rest => k ++ "=" ++ v ++ "&" ++ urlSearchParamsToString rest

/-- Lines 129–130: `const search = searchParams.toString();`
`const target = pathname + (search === '' ? '' : '?' + search)`. -/
def httpTarget (pathname : String) (allowed : SearchAllowList)
    (params : List (String × String)) : String :=
  let search := urlSearchParamsToString (collectSearchParams allowed params)
  pathname ++ (if search = "" then "" else "?" ++ search)

/-- `Headers.prototype.get` (keys are stored lower-cased, so lookup over
the stored pairs is exact). -/
def headersGet (headers : List (String × String)) (name : String) :
    Option String :=
  (headers.find? fun kv => kv.1 == name).map Prod.snd

/-- The request-header loop of `getSpan` lines 145–160: skip `cookie`,
skip keys rejected by `allowedHeaders`, otherwise set
`http.request.header.<lowercased key>` to the one-element array of the
value. -/
def requestHeaderAttributes (allowedHeaders : List AllowEntry) :
    List (String × String) → List (String × AttrValue)
  | [] => []
  | (k, v) :: rest =>
    if k == "cookie" then requestHeaderAttributes allowedHeaders rest
    else if !(allowedHeaders.any fun e => matchesEntry k e) then
      requestHeaderAttributes allowedHeaders rest
    else
      ("http.request.header." ++ strToLower k, AttrValue.strList [v]) ::
        requestHeaderAttributes allowedHeaders rest

/-- The response-header loop of `sendResponse` lines 190–205: skip
`set-cookie`, skip keys rejected by `allowedHeaders`, otherwise set
`http.response.header.<lowercased key>`. -/
def responseHeaderAttributes (allowedHeaders : List AllowEntry) :
    List (String × String) → List (String × AttrValue)
  | [] => []
  | (k, v) :: rest =>
    if k == "set-cookie" then responseHeaderAttributes allowedHeaders rest
    else if !(allowedHeaders.any fun e => matchesEntry k e) then
      responseHeaderAttributes allowedHeaders rest
    else
      ("http.response.header." ++ strToLower k, AttrValue.strList [v]) ::
        responseHeaderAttributes allowedHeaders rest

/-- The result of `new URL(request.url)`. -/
structure URLRec where
  pathname : String
  host : String
  hostname : String
  port : String
  /-- includes the trailing `:` as in the WHATWG URL API -/
  protocol : String
  searchParams : List (String × String)

/-- A Fetch-API `Request` as consumed by `getSpan`.  `url` is the result
of `new URL(request.url)`: `none` means the constructor would throw. -/
structure RequestRec where
  rawUrl : String
  method : String
  headers : List (String × String)
  url : Option URLRec

/-- A Cloudflare `ScheduledEvent` (it carries the discriminating `type`
field; `cron` is modelled nullable because the source applies `??` and a
truthiness test to it). -/
structure ScheduledEventRec where
  cron : Option String
  scheduledTime : ℚ

/-- The `Request | ScheduledEvent` union discriminated by
`'type' in eventOrRequest`. -/
inductive EventOrRequest where
  | scheduled (ev : ScheduledEventRec)
  | request (req : RequestRec)

/-- Errors that span construction can raise. -/
inductive JsError where
  | /-- evaluating `'type' in x` with `x` null/undefined throws a
    `TypeError` in JavaScript -/
    typeError
  | /-- `new Error('You must provide the request to start for fetch
    events!')` thrown at line 88 -/
    inputRequired
  | /-- `new URL(request.url)` throws on an unparseable URL -/
    urlParseError
deriving DecidableEq

/-- JS truthiness of the (nullable) trigger argument: `null`/`undefined`
are falsy, every object is truthy. -/
def jsFalsy : Option EventOrRequest → Bool
  | none => true
  | some _ => false

/-- The mutable allow-list configuration on `WorkersSDK`:
`allowedHeaders` and `allowedSearch`. -/
structure SdkConfig where
  allowedHeaders : List AllowEntry
  allowedSearch : SearchAllowList

/-- Field defaults: `['user-agent', 'cf-ray']` and `/.*/` (a regex that
matches every string). -/
def defaultConfig : SdkConfig :=
  { allowedHeaders := [AllowEntry.exact "user-agent", AllowEntry.exact "cf-ray"]
  , allowedSearch := SearchAllowList.single fun _ => true }

/-- The data `tracer.startSpan` receives plus the attributes set on the
span before `getSpan` returns it. -/
structure SpanData where
  name : String
  kind : SpanKind
  root : Bool
  startTime : ℚ
  attributes : List (String × AttrValue)
deriving DecidableEq

/-- JS string coercion of a number inside a template literal; for the
integral `scheduledTime` values produced by the platform this is the
decimal rendering. -/
def jsNumToString (q : ℚ) : String :=
  if q.den = 1 then toString q.num else toString q

/-- The attribute block of lines 132–143 followed by the filtered request
headers of lines 145–160. -/
def requestAttributes (cfg : SdkConfig) (req : RequestRec) (url : URLRec) :
    List (String × AttrValue) :=
  [ ("http.method", AttrValue.str req.method)
  , ("http.url", AttrValue.str req.rawUrl)
  , ("http.target",
      AttrValue.str (httpTarget url.pathname cfg.allowedSearch url.searchParams))
  , ("http.host", AttrValue.str url.host)
  , ("net.host.name", AttrValue.str url.hostname)
  , ("net.host.port", AttrValue.str url.port)
  , ("http.scheme",
      AttrValue.str (url.protocol.take (url.protocol.length - 1)))
  , ("http.user_agent", AttrValue.optStr (headersGet req.headers "user-agent"))
  , ("net.peer.ip", AttrValue.optStr (headersGet req.headers "cf-connecting-ip"))
  , ("http.client_ip", AttrValue.optStr (headersGet req.headers "cf-connecting-ip")) ]
  ++ requestHeaderAttributes cfg.allowedHeaders req.headers

/-- `WorkersSDK.getSpan` (lines 81–163).  The argument is `Option`-typed
because the source guards `if (!eventOrRequest)`; note however that the
guard sits after `'type' in eventOrRequest`, which in JavaScript throws a
`TypeError` when the operand is `null`/`undefined`, so the `none` case
errors before the guard is reached.  `now` is the `Date.now()` value used
as `startTime`. -/
def getSpan (cfg : SdkConfig) (now : ℚ) (input : Option EventOrRequest) :
    Except JsError SpanData :=
  match input with
  | none =>
      -- line 83: `'type' in eventOrRequest` with eventOrRequest null
      Except.error JsError.typeError
  | some (EventOrRequest.scheduled ev) =>
      Except.ok
        { name := "scheduled " ++
            (match ev.cron with
             | some c => c                        -- `cron ?? scheduledTime`
             | none => jsNumToString ev.scheduledTime)
        , kind := SpanKind.SERVER  -- line 97 ternary, true branch
        , root := true
        , startTime := now
        , attributes :=
            [ ("faas.trigger", AttrValue.str "timer")
            , ("faas.time", AttrValue.num ev.scheduledTime) ]
            ++ (match ev.cron with
                | none => []                      -- absent: falsy
                | some c =>
                    -- `if (scheduledEvent.cron)`: "" is falsy in JS
                    if c = "" then []
                    else [("faas.cron", AttrValue.str c)]) }
  | some (EventOrRequest.request req) =>
      -- line 87 `if (!eventOrRequest) throw ...`: the value here is a
      -- non-null object, hence truthy, so the guard can never fire
      if jsFalsy (some (EventOrRequest.request req)) then
        Except.error JsError.inputRequired
      else
        match req.url with
        | none => Except.error JsError.urlParseError  -- `new URL` throws
        | some url =>
            Except.ok
              { name := "fetch " ++ req.method ++ " " ++ url.pathname
              , kind := SpanKind.INTERNAL  -- line 97 ternary, false branch
              , root := true
              , startTime := now
              , attributes := requestAttributes cfg req url }

/-- The per-invocation mutable fields of `WorkerInstance`. -/
structure WorkerInstanceState where
  flushed : Bool
  startTime : ℚ
deriving DecidableEq

/-- `new WorkerInstance(...)`: `flushed = false`, `startTime = Date.now()`. -/
def mkWorkerInstance (now : ℚ) : WorkerInstanceState :=
  { flushed := false, startTime := now }

/-- Observable behaviour of `WorkerInstance.fetch` (lines 176–184): it
warns exactly when `this.flushed` is true and always performs
`_globalThis.fetch`. -/
structure FetchEffect where
  warned : Bool
  performsNetworkCall : Bool
deriving DecidableEq

/-- `WorkerInstance.fetch`. -/
def instanceFetch (s : WorkerInstanceState) : FetchEffect :=
  { warned := s.flushed, performsNetworkCall := true }

/-- Lines 207–210 / 220–223: `let endTime = Date.now();
if (this.startTime === endTime) endTime += 0.01;` -/
def computeEndTime (startTime now : ℚ) : ℚ :=
  if startTime = now then now + 1 / 100 else now

/-- A Fetch-API `Response` as consumed by `sendResponse`. -/
structure ResponseRec where
  status : ℚ
  headers : List (String × String)

/-- Everything `WorkerInstance.sendResponse` does. -/
structure SendResponseEffect where
  /-- the instance fields after the call -/
  state : WorkerInstanceState
  /-- attributes set on the span: the status code then the filtered
  response headers -/
  attrsSet : List (String × AttrValue)
  /-- the time passed to `span.end` -/
  endTime : ℚ
  /-- `this.context.waitUntil(this.sdk.end())` was issued -/
  flushRequested : Bool
  /-- the return value -/
  returned : ResponseRec

/-- `WorkerInstance.sendResponse` (lines 186–215).  Note the method never
writes `this.flushed` (or `this.startTime`), so `state` is unchanged. -/
def sendResponse (allowedHeaders : List AllowEntry)
    (s : WorkerInstanceState) (now : ℚ) (response : ResponseRec) :
    SendResponseEffect :=
  { state := s
  , attrsSet :=
      ("http.status_code", AttrValue.num response.status) ::
        responseHeaderAttributes allowedHeaders response.headers
  , endTime := computeEndTime s.startTime now
  , flushRequested := true
  , returned := response }

/-- Everything `WorkerInstance.captureException` does. -/
structure CaptureExceptionEffect where
  state : WorkerInstanceState
  /-- `span.recordException(ex)` was issued -/
  recordedException : Bool
  endTime : ℚ
  flushRequested : Bool

/-- `WorkerInstance.captureException` (lines 217–226).  It too never
writes `this.flushed`. -/
def captureException (s : WorkerInstanceState) (now : ℚ) :
    CaptureExceptionEffect :=
  { state := s
  , recordedException := true
  , endTime := computeEndTime s.startTime now
  , flushRequested := true }

/-- First attribute with the given name (attribute names produced by a
single `getSpan`/`sendResponse` call are pairwise distinct, so this is
the recorded value). -/
def attrLookup (name : String) (attrs : List (String × AttrValue)) :
    Option AttrValue :=
  (attrs.find? fun kv => kv.1 == name).map Prod.snd

/-- The parse of `https://svc.example/a/b?x=1&y=2` (spec §8 scenario). -/
def sampleUrl : URLRec :=
  { pathname := "/a/b"
  , host := "svc.example"
  , hostname := "svc.example"
  , port := ""
  , protocol := "https:"
  , searchParams := [("x", "1"), ("y", "2")] }

/-- `GET https://svc.example/a/b?x=1&y=2` with a user-agent and a cookie. -/
def sampleRequest : RequestRec :=
  { rawUrl := "https://svc.example/a/b?x=1&y=2"
  , method := "GET"
  , headers := [("user-agent", "UA1"), ("cookie", "secret")]
  , url := some sampleUrl }

/-- A scheduled event with a cron expression (spec §8 scenario). -/
def sampleScheduledEvent : ScheduledEventRec :=
  { cron := some "0 * * * *", scheduledTime := 1700000000000 }

/-- A 500 response whose headers include `set-cookie`. -/
def sampleResponse : ResponseRec :=
  { status := 500, headers := [("set-cookie", "sid=1"), ("user-agent", "UA1")] }

/-- The default header allow-list together with the query-parameter
allow-list `["x"]` of the §8 scenario. -/
def sampleConfig : SdkConfig :=
  { allowedHeaders := [AllowEntry.exact "user-agent", AllowEntry.exact "cf-ray"]
  , allowedSearch := SearchAllowList.list [AllowEntry.exact "x"] }

/-- An adversarial allow-list that names `cookie` and `set-cookie`
explicitly (C3 says they are still excluded). -/
def wideConfig : SdkConfig :=
  { allowedHeaders :=
      [AllowEntry.exact "cookie", AllowEntry.exact "set-cookie",
       AllowEntry.exact "user-agent"]
  , allowedSearch := SearchAllowList.single fun _ => true }

theorem string_append_left_cancel {s t u : String} (h : s ++ t = s ++ u) :
    t = u := by
  have hd : (s ++ t).data = (s ++ u).data := congrArg String.data h
  rw [String.data_append, String.data_append] at hd
  exact String.ext (List.append_cancel_left hd)

theorem urlSearchParamsToString_eq_empty_iff (ps : List (String × String)) :
    urlSearchParamsToString ps = "" ↔ ps = [] := by
  constructor
  · intro h
    match ps, h with
    | [], _ => rfl
    | [(k, v)], h =>
      exfalso
      have hd := congrArg String.length h
      have he : urlSearchParamsToString [(k, v)] = k ++ "=" ++ v := rfl
      rw [he, String.length_append, String.length_append] at hd
      have h1 : ("=" : String).length = 1 := rfl
      have h0 : ("" : String).length = 0 := rfl
      omega
    | (k, v) :: kv2 :: rest, h =>
      exfalso
      have hd := congrArg String.length h
      have he : urlSearchParamsToString ((k, v) :: kv2 :: rest)
          = k ++ "=" ++ v ++ "&" ++ urlSearchParamsToString (kv2 :: rest) := rfl
      rw [he, String.length_append, String.length_append, String.length_append,
        String.length_append] at hd
      have h1 : ("=" : String).length = 1 := rfl
      have h0 : ("" : String).length = 0 := rfl
      omega
  · intro h
    subst h
    rfl

theorem hlp_collectSearchParams_eq_filter (al : SearchAllowList)
    (ps : List (String × String)) :
    collectSearchParams al ps = ps.filter fun kv => searchKeyAllowed al kv.1 := by
  induction ps with
  | nil => rfl
  | cons kv rest ih =>
    obtain ⟨k, v⟩ := kv
    cases al with
    | single p =>
      by_cases hp : p k <;>
        simp [collectSearchParams, List.filter, searchKeyAllowed, hp, ih]
    | list entries =>
      by_cases hp : entries.any fun e => matchesEntry k e <;>
        simp [collectSearchParams, List.filter, searchKeyAllowed, hp, ih]

theorem hlp_attrLookup_eq_none (name : String)
    (attrs : List (String × AttrValue)) (h : ∀ a ∈ attrs, a.1 ≠ name) :
    attrLookup name attrs = none := by
  unfold attrLookup
  rw [List.find?_eq_none.mpr]
  · rfl
  · intro x hx
    simpa using h x hx

/-- C2: the `http.target` attribute recorded for a request trigger is the
URL path followed by exactly the query parameters whose keys pass
`allowedSearch`, kept in their original relative order, and the `?` is
omitted when no parameter survives the filter. -/
theorem c2_http_target_filtering (cfg : SdkConfig) (now : ℚ)
    (pathname : String) (ps : List (String × String)) (al : SearchAllowList)
    (req : RequestRec) (url : URLRec) (hurl : req.url = some url) :
    collectSearchParams al ps
      = ps.filter (fun kv => searchKeyAllowed al kv.1) ∧
    (collectSearchParams al ps).Sublist ps ∧
    (collectSearchParams al ps = [] → httpTarget pathname al ps = pathname) ∧
    (collectSearchParams al ps ≠ [] →
      httpTarget pathname al ps
        = pathname ++ "?"
            ++ urlSearchParamsToString (collectSearchParams al ps)) ∧
    (getSpan cfg now (some (EventOrRequest.request req))).map
        (fun sd => attrLookup "http.target" sd.attributes)
      = Except.ok (some (AttrValue.str
          (httpTarget url.pathname cfg.allowedSearch url.searchParams))) := by
  have ht : httpTarget pathname al ps
      = pathname
        ++ (if urlSearchParamsToString (collectSearchParams al ps) = ""
            then "" else "?" ++ urlSearchParamsToString (collectSearchParams al ps)) :=
    rfl
  refine ⟨hlp_collectSearchParams_eq_filter al ps, ?_, ?_, ?_, ?_⟩
  · rw [hlp_collectSearchParams_eq_filter]
    exact List.filter_sublist ps
  · intro h
    rw [ht, h]
    simp [urlSearchParamsToString]
  · intro h
    have hne : urlSearchParamsToString (collectSearchParams al ps) ≠ "" := by
      intro hs
      exact h ((urlSearchParamsToString_eq_empty_iff _).mp hs)
    rw [ht, if_neg hne, String.append_assoc]
  · rw [getSpan, hurl]
    rfl

/-- C2 witness: request `GET https://svc.example/a/b?x=1&y=2` with
query-parameter allow-list `["x"]` records target `/a/b?x=1`. -/
theorem c2_http_target_filtering_witness :
    httpTarget "/a/b" (SearchAllowList.list [AllowEntry.exact "x"])
        [("x", "1"), ("y", "2")] = "/a/b?x=1" ∧
    (getSpan sampleConfig 0 (some (EventOrRequest.request sampleRequest))).map
        (fun sd => attrLookup "http.target" sd.attributes)
      = Except.ok (some (AttrValue.str "/a/b?x=1")) := by
  have h := c2_http_target_filtering sampleConfig 0 "/a/b"
    [("x", "1"), ("y", "2")] (SearchAllowList.list [AllowEntry.exact "x"])
    sampleRequest sampleUrl rfl
  constructor
  · rw [h.2.2.2.1 (by decide)]
    rfl
  · rw [h.2.2.2.2]
    rfl

/-- C1: the claim says request triggers open the span with kind SERVER and
scheduled triggers with kind INTERNAL.  The code evaluates to the opposite:
the line-97 ternary hands SERVER to the `'type' in eventOrRequest` branch,
which is the scheduled-event branch, and INTERNAL to the request branch. -/
theorem c1_span_kind_evaluation (cfg : SdkConfig) (now : ℚ)
    (ev : ScheduledEventRec) (req : RequestRec) (url : URLRec)
    (hurl : req.url = some url) :
    (getSpan cfg now (some (EventOrRequest.scheduled ev))).map SpanData.kind
      = Except.ok SpanKind.SERVER ∧
    (getSpan cfg now (some (EventOrRequest.request req))).map SpanData.kind
      = Except.ok SpanKind.INTERNAL := by
  constructor
  · rfl
  · rw [getSpan, hurl]
    rfl

/-- C1 witness: concrete evaluation at the sample scheduled event and the
sample request. -/
theorem c1_span_kind_evaluation_witness :
    (getSpan defaultConfig 0
        (some (EventOrRequest.scheduled sampleScheduledEvent))).map SpanData.kind
      = Except.ok SpanKind.SERVER ∧
    (getSpan defaultConfig 0
        (some (EventOrRequest.request sampleRequest))).map SpanData.kind
      = Except.ok SpanKind.INTERNAL :=
  c1_span_kind_evaluation defaultConfig 0 sampleScheduledEvent sampleRequest
    sampleUrl rfl

/-- C4: the claim says the outcome operations set `flushed` to true and a
subsequent `fetch` warns.  In the code neither `sendResponse` nor
`captureException` ever assigns `this.flushed`, so the instance state is
returned unchanged, `flushed` stays false after an outcome call, and the
subsequent `fetch` does not warn (though it does perform the network
call). -/
theorem c4_flushed_never_set (al : List AllowEntry) (s : WorkerInstanceState)
    (now : ℚ) (resp : ResponseRec) :
    (sendResponse al s now resp).state = s ∧
    (captureException s now).state = s ∧
    ((sendResponse al (mkWorkerInstance 0) 5 resp).state).flushed = false ∧
    (instanceFetch (sendResponse al (mkWorkerInstance 0) 5 resp).state).warned
      = false ∧
    (instanceFetch
        (sendResponse al (mkWorkerInstance 0) 5 resp).state).performsNetworkCall
      = true :=
  ⟨rfl, rfl, rfl, rfl, rfl⟩

/-- C5: when the `Date.now()` value observed by `sendResponse` or
`captureException` equals the recorded `startTime`, the end time handed to
`span.end` is nudged to `now + 0.01`, hence strictly greater than the
start instant, so the duration is strictly positive (and the nudge stays
below one time unit). -/
theorem c5_zero_duration_nudge (al : List AllowEntry)
    (s : WorkerInstanceState) (now : ℚ) (resp : ResponseRec)
    (h : now = s.startTime) :
    s.startTime < (sendResponse al s now resp).endTime ∧
    s.startTime < (captureException s now).endTime ∧
    0 < (sendResponse al s now resp).endTime - s.startTime ∧
    (captureException s now).endTime - s.startTime < 1 := by
  subst h
  simp only [sendResponse, captureException, computeEndTime, if_pos rfl]
  norm_num

/-- C5 witness: a response sent at the very instant the instance was
created. -/
theorem c5_zero_duration_nudge_witness :
    (mkWorkerInstance 7).startTime
        < (sendResponse [] (mkWorkerInstance 7) 7 sampleResponse).endTime ∧
    (mkWorkerInstance 7).startTime
        < (captureException (mkWorkerInstance 7) 7).endTime ∧
    0 < (sendResponse [] (mkWorkerInstance 7) 7 sampleResponse).endTime
        - (mkWorkerInstance 7).startTime ∧
    (captureException (mkWorkerInstance 7) 7).endTime
        - (mkWorkerInstance 7).startTime < 1 :=
  c5_zero_duration_nudge [] (mkWorkerInstance 7) 7 sampleResponse rfl

/-- C6: the claim says a null request makes span construction throw the
`InputRequiredError`.  In the code the null guard sits after
`'type' in eventOrRequest`, and the `in` operator throws a `TypeError` on
a null operand, so the null input raises `TypeError` and the
`InputRequiredError` is unreachable for every input. -/
theorem c6_input_required_unreachable (cfg : SdkConfig) (now : ℚ) :
    (∀ input, getSpan cfg now input ≠ Except.error JsError.inputRequired) ∧
    getSpan cfg now none = Except.error JsError.typeError := by
  constructor
  · intro input
    match input with
    | none => simp [getSpan]
    | some (EventOrRequest.scheduled ev) => simp [getSpan]
    | some (EventOrRequest.request req) =>
      cases hurl : req.url <;> simp [getSpan, jsFalsy, hurl]
  · rfl

/-- C8: the allow-list membership predicate is a logical OR over the
entries, so it is invariant under permutation of the allow-list. -/
theorem c8_allow_list_is_or (key : String) (l l2 : List AllowEntry) :
    (isAllowed key l = true ↔ ∃ e ∈ l, matchesEntry key e = true) ∧
    (l.Perm l2 → isAllowed key l = isAllowed key l2) := by
  constructor
  · exact List.any_eq_true
  · intro hperm
    have hiff : isAllowed key l = true ↔ isAllowed key l2 = true := by
      simp only [isAllowed]
      rw [List.any_eq_true, List.any_eq_true]
      constructor
      · rintro ⟨e, he, hm⟩
        exact ⟨e, hperm.mem_iff.mp he, hm⟩
      · rintro ⟨e, he, hm⟩
        exact ⟨e, hperm.mem_iff.mpr he, hm⟩
    cases h1 : isAllowed key l <;> cases h2 : isAllowed key l2 <;> simp_all

/-- C8 witness: a transposed two-entry allow-list gives the same verdict. -/
theorem c8_allow_list_is_or_witness :
    isAllowed "x" [AllowEntry.exact "a", AllowEntry.exact "x"]
      = isAllowed "x" [AllowEntry.exact "x", AllowEntry.exact "a"] :=
  (c8_allow_list_is_or "x"
      [AllowEntry.exact "a", AllowEntry.exact "x"]
      [AllowEntry.exact "x", AllowEntry.exact "a"]).2
    (List.Perm.swap (AllowEntry.exact "x") (AllowEntry.exact "a") [])

/-- C9: `sendResponse` returns exactly the response object it was given;
in particular its status and headers are unchanged. -/
theorem c9_send_response_returns_argument (al : List AllowEntry)
    (s : WorkerInstanceState) (now : ℚ) (resp : ResponseRec) :
    (sendResponse al s now resp).returned = resp ∧
    ((sendResponse al s now resp).returned).status = resp.status ∧
    ((sendResponse al s now resp).returned).headers = resp.headers :=
  ⟨rfl, rfl, rfl⟩

/-- C10: for a scheduled event whose `cron` field is the empty string, the
name fallback `cron ?? scheduledTime` keeps the empty cron (name
`"scheduled "`), while the truthiness guard `if (scheduledEvent.cron)`
rejects it, so `faas.cron` is not set. -/
theorem c10_empty_string_cron (cfg : SdkConfig) (now t : ℚ) :
    (getSpan cfg now (some (EventOrRequest.scheduled
        { cron := some "", scheduledTime := t }))).map SpanData.name
      = Except.ok "scheduled " ∧
    (getSpan cfg now (some (EventOrRequest.scheduled
        { cron := some "", scheduledTime := t }))).map
        (fun sd => attrLookup "faas.cron" sd.attributes)
      = Except.ok none := by
  constructor
  · rfl
  · rfl

theorem hlp_requestHeaderAttributes_no_cookie (al : List AllowEntry)
    (hs : List (String × String))
    (hlow : ∀ kv ∈ hs, strToLower kv.1 = kv.1) :
    ∀ a ∈ requestHeaderAttributes al hs,
      a.1 ≠ "http.request.header.cookie" := by
  induction hs with
  | nil =>
    intro a ha
    simp [requestHeaderAttributes] at ha
  | cons kv rest ih =>
    obtain ⟨k, v⟩ := kv
    have hlk : strToLower k = k := hlow (k, v) (List.mem_cons_self _ _)
    have hrest : ∀ kv2 ∈ rest, strToLower kv2.1 = kv2.1 :=
      fun kv2 h2 => hlow kv2 (List.mem_cons_of_mem _ h2)
    intro a ha
    by_cases hk : (k == "cookie") = true
    · simp only [requestHeaderAttributes, hk, if_true] at ha
      exact ih hrest a ha
    · by_cases hall : (al.any fun e => matchesEntry k e) = true
      · simp only [requestHeaderAttributes, hk, hall, Bool.not_true,
          if_false, Bool.false_eq_true, List.mem_cons] at ha
        rcases ha with ha | ha
        · subst ha
          intro heq
          have heq2 : "http.request.header." ++ strToLower k
              = "http.request.header." ++ "cookie" := heq
          have h3 := string_append_left_cancel heq2
          rw [hlk] at h3
          subst h3
          simp at hk
        · exact ih hrest a ha
      · simp only [requestHeaderAttributes, hk, hall, Bool.not_false,
          if_false, Bool.false_eq_true, if_true] at ha
        exact ih hrest a ha

theorem hlp_responseHeaderAttributes_no_set_cookie (al : List AllowEntry)
    (hs : List (String × String))
    (hlow : ∀ kv ∈ hs, strToLower kv.1 = kv.1) :
    ∀ a ∈ responseHeaderAttributes al hs,
      a.1 ≠ "http.response.header.set-cookie" := by
  induction hs with
  | nil =>
    intro a ha
    simp [responseHeaderAttributes] at ha
  | cons kv rest ih =>
    obtain ⟨k, v⟩ := kv
    have hlk : strToLower k = k := hlow (k, v) (List.mem_cons_self _ _)
    have hrest : ∀ kv2 ∈ rest, strToLower kv2.1 = kv2.1 :=
      fun kv2 h2 => hlow kv2 (List.mem_cons_of_mem _ h2)
    intro a ha
    by_cases hk : (k == "set-cookie") = true
    · simp only [responseHeaderAttributes, hk, if_true] at ha
      exact ih hrest a ha
    · by_cases hall : (al.any fun e => matchesEntry k e) = true
      · simp only [responseHeaderAttributes, hk, hall, Bool.not_true,
          if_false, Bool.false_eq_true, List.mem_cons] at ha
        rcases ha with ha | ha
        · subst ha
          intro heq
          have heq2 : "http.response.header." ++ strToLower k
              = "http.response.header." ++ "set-cookie" := heq
          have h3 := string_append_left_cancel heq2
          rw [hlk] at h3
          subst h3
          simp at hk
        · exact ih hrest a ha
      · simp only [responseHeaderAttributes, hk, hall, Bool.not_false,
          if_false, Bool.false_eq_true, if_true] at ha
        exact ih hrest a ha

/-- C3: whatever the header allow-list says, span construction never
records an attribute named `http.request.header.cookie` and
`sendResponse` never records one named `http.response.header.set-cookie`
(header keys are lower-cased as Fetch-API `Headers` stores them). -/
theorem c3_cookie_never_recorded (cfg : SdkConfig) (now : ℚ)
    (input : Option EventOrRequest) (st : WorkerInstanceState) (now2 : ℚ)
    (resp : ResponseRec)
    (hreq : ∀ req, input = some (EventOrRequest.request req) →
      ∀ kv ∈ req.headers, strToLower kv.1 = kv.1)
    (hresp : ∀ kv ∈ resp.headers, strToLower kv.1 = kv.1) :
    (∀ sd, getSpan cfg now input = Except.ok sd →
      attrLookup "http.request.header.cookie" sd.attributes = none) ∧
    attrLookup "http.response.header.set-cookie"
      (sendResponse cfg.allowedHeaders st now2 resp).attrsSet = none := by
  constructor
  · intro sd hsd
    match input, hsd, hreq with
    | none, hsd, _ => simp [getSpan] at hsd
    | some (EventOrRequest.scheduled ev), hsd, _ =>
      simp only [getSpan, Except.ok.injEq] at hsd
      subst hsd
      apply hlp_attrLookup_eq_none
      intro a ha
      match hc : ev.cron with
      | none =>
        rw [hc] at ha
        simp at ha
        rcases ha with ha | ha <;> subst ha <;> simp
      | some c =>
        rw [hc] at ha
        by_cases hce : c = ""
        · subst hce
          simp at ha
          rcases ha with ha | ha <;> subst ha <;> simp
        · simp [hce] at ha
          rcases ha with ha | ha | ha <;> subst ha <;> simp
    | some (EventOrRequest.request req), hsd, hreq =>
      have hlow := hreq req rfl
      match hu : req.url with
      | none =>
        rw [getSpan, hu] at hsd
        simp [jsFalsy] at hsd
      | some url =>
        rw [getSpan, hu] at hsd
        simp only [jsFalsy, Bool.false_eq_true, if_false,
          Except.ok.injEq] at hsd
        subst hsd
        apply hlp_attrLookup_eq_none
        intro a ha
        rcases List.mem_append.mp ha with hfix | hdyn
        · simp only [List.mem_cons, List.not_mem_nil, or_false] at hfix
          rcases hfix with ha | ha | ha | ha | ha | ha | ha | ha | ha | ha <;>
            subst ha <;> simp
        · exact hlp_requestHeaderAttributes_no_cookie
            cfg.allowedHeaders req.headers hlow a hdyn
  · apply hlp_attrLookup_eq_none
    intro a ha
    rcases List.mem_cons.mp ha with ha | ha
    · subst ha
      simp
    · exact hlp_responseHeaderAttributes_no_set_cookie
        cfg.allowedHeaders resp.headers hresp a ha

/-- C3 witness: the §8 scenarios — a request carrying a cookie and a 500
response carrying a set-cookie, with an allow-list that even names
`cookie` and `set-cookie` explicitly. -/
theorem c3_cookie_never_recorded_witness :
    (∀ sd, getSpan wideConfig 0
        (some (EventOrRequest.request sampleRequest)) = Except.ok sd →
      attrLookup "http.request.header.cookie" sd.attributes = none) ∧
    attrLookup "http.response.header.set-cookie"
      (sendResponse wideConfig.allowedHeaders
        (mkWorkerInstance 0) 3 sampleResponse).attrsSet = none := by
  refine c3_cookie_never_recorded wideConfig 0
    (some (EventOrRequest.request sampleRequest)) (mkWorkerInstance 0) 3
    sampleResponse ?_ ?_
  · intro req h
    injection h with h2
    injection h2 with h3
    subst h3
    decide
  · decide

/-- C7 counterexample: the scheduled event whose `cron` field is present
but equal to the empty string.  The cron expression is present (the field
is not null), yet no `faas.cron` attribute is recorded, refuting
"faas.cron = cron exactly when the cron expression is present" (and under
a non-empty reading of "present", the name conjunct fails instead, since
the name becomes `"scheduled "` rather than using the scheduled time). -/
theorem c7_counterexample :
    ((some "" : Option String) ≠ none) ∧
    (getSpan defaultConfig 0 (some (EventOrRequest.scheduled
        { cron := some "", scheduledTime := 1700000000000 }))).map
        (fun sd => attrLookup "faas.cron" sd.attributes)
      = Except.ok none ∧
    (getSpan defaultConfig 0 (some (EventOrRequest.scheduled
        { cron := some "", scheduledTime := 1700000000000 }))).map
        SpanData.name
      = Except.ok "scheduled " := by
  refine ⟨by simp, rfl, rfl⟩

/-- C7 (amended): for every scheduled trigger the span name is
`"scheduled "` followed by the cron string whenever the `cron` field is
present (even when it is the empty string), otherwise by the scheduled
time; the attributes `faas.trigger = "timer"` and
`faas.time = scheduledTime` are always recorded; and `faas.cron = cron`
is recorded exactly when the cron expression is present and non-empty. -/
theorem c7_scheduled_span (cfg : SdkConfig) (now : ℚ)
    (ev : ScheduledEventRec) :
    (∀ c, ev.cron = some c →
      (getSpan cfg now (some (EventOrRequest.scheduled ev))).map SpanData.name
        = Except.ok ("scheduled " ++ c)) ∧
    (ev.cron = none →
      (getSpan cfg now (some (EventOrRequest.scheduled ev))).map SpanData.name
        = Except.ok ("scheduled " ++ jsNumToString ev.scheduledTime)) ∧
    (getSpan cfg now (some (EventOrRequest.scheduled ev))).map
        (fun sd => attrLookup "faas.trigger" sd.attributes)
      = Except.ok (some (AttrValue.str "timer")) ∧
    (getSpan cfg now (some (EventOrRequest.scheduled ev))).map
        (fun sd => attrLookup "faas.time" sd.attributes)
      = Except.ok (some (AttrValue.num ev.scheduledTime)) ∧
    (∀ c, (getSpan cfg now (some (EventOrRequest.scheduled ev))).map
          (fun sd => attrLookup "faas.cron" sd.attributes)
        = Except.ok (some (AttrValue.str c))
      ↔ (ev.cron = some c ∧ c ≠ "")) := by
  match hc : ev.cron with
  | none =>
    refine ⟨?_, ?_, ?_, ?_, ?_⟩
    · intro c h
      exact Option.noConfusion h
    · intro _
      simp only [getSpan, hc]
      rfl
    · simp only [getSpan, hc]
      rfl
    · simp only [getSpan, hc]
      rfl
    · intro c
      simp only [getSpan, hc]
      constructor
      · intro h
        exact Option.noConfusion (Except.ok.inj h)
      · rintro ⟨h1, h2⟩
        exact Option.noConfusion h1
  | some c0 =>
    by_cases hce : c0 = ""
    · subst hce
      refine ⟨?_, ?_, ?_, ?_, ?_⟩
      · intro c h
        injection h with h2
        subst h2
        simp only [getSpan, hc]
        rfl
      · intro h
        exact Option.noConfusion h
      · simp only [getSpan, hc]
        rfl
      · simp only [getSpan, hc]
        rfl
      · intro c
        simp only [getSpan, hc]
        constructor
        · intro h
          exact Option.noConfusion (Except.ok.inj h)
        · rintro ⟨h1, h2⟩
          injection h1 with h3
          subst h3
          exact absurd rfl h2
    · refine ⟨?_, ?_, ?_, ?_, ?_⟩
      · intro c h
        injection h with h2
        subst h2
        simp only [getSpan, hc]
        rfl
      · intro h
        exact Option.noConfusion h
      · simp only [getSpan, hc]
        rfl
      · simp only [getSpan, hc]
        rfl
      · intro c
        simp only [getSpan, hc, if_neg hce]
        constructor
        · intro h
          have h3 := AttrValue.str.inj (Option.some.inj (Except.ok.inj h))
          subst h3
          exact ⟨rfl, hce⟩
        · rintro ⟨h1, h2⟩
          injection h1 with h3
          subst h3
          rfl

/-- C7 witness: `cron = "0 * * * *"`, `scheduledTime = 1700000000000`
gives name `"scheduled 0 * * * *"` and `faas.cron = "0 * * * *"`. -/
theorem c7_scheduled_span_witness :
    (getSpan defaultConfig 0
        (some (EventOrRequest.scheduled sampleScheduledEvent))).map
        SpanData.name
      = Except.ok "scheduled 0 * * * *" ∧
    (getSpan defaultConfig 0
        (some (EventOrRequest.scheduled sampleScheduledEvent))).map
        (fun sd => attrLookup "faas.cron" sd.attributes)
      = Except.ok (some (AttrValue.str "0 * * * *")) := by
  have h := c7_scheduled_span defaultConfig 0 sampleScheduledEvent
  constructor
  · rw [h.1 "0 * * * *" rfl]
    rfl
  · exact (h.2.2.2.2 "0 * * * *").mpr ⟨rfl, by decide⟩

end WorkersSdk
